import Mathlib

/-! Verification of the vector-store lifecycle manager and retrieval-augmented
query pipeline of talk-codebase (src/talk_codebase/llm.py and
src/talk_codebase/LLM.py), as a shallow embedding. External collaborators
(the document loader, the text splitter, the similarity search and the
language model) are function parameters; on-disk persistence and traffic to
the embedding provider are an explicit world state. Where the two
near-duplicate source files disagree the more complete version is embedded:
`_create_vector_store` follows llm.py (with `force_recreate`; LLM.py is the
special case `force_recreate = false`), `_update_vector_store` follows LLM.py
(the only file that has it), and `send_query` follows llm.py's
`LocalLLM.send_query` and `OpenAILLM.send_query`. -/

namespace TalkCodebase

/-- Document: a unit of source content with page content and source-path
metadata, as produced by the langchain loaders (`page_content`,
`metadata["source"]`). Chunks produced by the splitter are documents too. -/
structure Document where
  page_content : String
  source : String
deriving Repr, DecidableEq

/-- Vector store contents: the multiset of stored chunk entries, kept as a
list in insertion order. The embedding vectors themselves belong to the
out-of-scope nearest-neighbor collaborator and are not modelled. -/
structure VectorStore where
  entries : List Document
deriving Repr, DecidableEq

/-- World state threaded through the manager: the persisted stores by index
path, the number of chunks submitted to the embedding provider so far, and
the number of `save_local` persist operations performed so far. -/
structure World where
  disk : List (String × VectorStore)
  embedded : Nat
  saves : Nat
deriving Repr, DecidableEq

/-- Lookup of a persisted store by index path (most recent write wins). -/
def diskGet (disk : List (String × VectorStore)) (path : String) : Option VectorStore :=
  match disk with
  | [] => none
  | (q, v) :: rest => if q = path then some v else diskGet rest path

/-- Record a persisted store at an index path. -/
def diskSet (disk : List (String × VectorStore)) (path : String) (v : VectorStore) :
    List (String × VectorStore) :=
  (path, v) :: disk

/-- Python `posixpath.normpath` component processing: drop empty and `.`
components, resolve `..` against the accumulated components. -/
def normpathStep (initialSlashes : Nat) (acc : List String) (comp : String) : List String :=
  if comp = "" ∨ comp = "." then acc
  else if comp ≠ ".." ∨ (initialSlashes = 0 ∧ acc = []) ∨ acc.getLast? = some ".." then
    acc ++ [comp]
  else if acc ≠ [] then acc.dropLast
  else acc

/-- Python `os.path.normpath` (posix flavor), used at llm.py line 40 and
LLM.py lines 42 and 70 to normalize the root directory. -/
def normpath (path : String) : String :=
  if path = "" then "."
  else
    let initialSlashes : Nat :=
      if path.startsWith "/" then
        if path.startsWith "//" ∧ ¬ path.startsWith "///" then 2 else 1
      else 0
    let comps := path.splitOn "/"
    let newComps := comps.foldl (normpathStep initialSlashes) []
    let joined := String.intercalate "/" newComps
    let out := String.join (List.replicate initialSlashes "/") ++ joined
    if out = "" then "." else out

/-- Python `os.path.join` (posix flavor) on two components. -/
def os_join2 (a b : String) : String :=
  if b.startsWith "/" then b
  else if a = "" ∨ a.endsWith "/" then a ++ b
  else a ++ "/" ++ b

/-- Python `os.path.abspath` for an already-rooted process working directory:
`normpath(join(cwd, p))`. -/
def os_abspath (cwd p : String) : String := normpath (os_join2 cwd p)

/-- The index path computed by the manager:
`os.path.join(os.path.normpath(root_dir), "vector_store", index)`. -/
def index_path_of (root_dir index : String) : String :=
  os_join2 (os_join2 (normpath root_dir) "vector_store") index

/-- `FAISS.from_documents`: builds a new store holding exactly the given
chunk list, submitting every chunk to the embedding provider. -/
def FAISS_from_documents (texts : List Document) (w : World) : VectorStore × World :=
  (⟨texts⟩, { w with embedded := w.embedded + texts.length })

/-- `db.add_documents`: appends the given chunks to the store, submitting
them to the embedding provider. -/
def add_documents (db : VectorStore) (texts : List Document) (w : World) :
    VectorStore × World :=
  (⟨db.entries ++ texts⟩, { w with embedded := w.embedded + texts.length })

/-- `db.save_local`: persists the store at the index path. -/
def save_local (db : VectorStore) (index_path : String) (w : World) : World :=
  { w with disk := diskSet w.disk index_path db, saves := w.saves + 1 }

/-- `FAISS.load_local` as used at LLM.py line 74: the persisted store at the
index path, or none when there is none (the code checks the result against
`None`). -/
def FAISS_load_local (w : World) (index_path : String) : Option VectorStore :=
  diskGet w.disk index_path

/-- Modelled from the spec: `utils.get_local_vector_store` is not under src/.
Per the spec (section 4.3), reuse-detection loads and returns the store
persisted at the computed index path when one exists, and yields nothing
otherwise. -/
def get_local_vector_store (w : World) (index_path : String) : Option VectorStore :=
  diskGet w.disk index_path

/-- `db.remove_documents_where` as used at LLM.py line 94: removes every
stored entry whose metadata satisfies the predicate. -/
def remove_documents_where (db : VectorStore) (p : Document → Bool) : VectorStore :=
  ⟨db.entries.filter (fun d => !(p d))⟩

/-- langchain `split_documents`: chunks each document in order and
concatenates the per-document chunk lists. The per-document splitter
(`RecursiveCharacterTextSplitter(chunk_size, chunk_overlap)`) is an external
collaborator passed in as a function. -/
def split_documents (split : Document → List Document) : List Document → List Document
  | [] => []
  | d :: rest => split d ++ split_documents split rest

/-- The document Loader (external collaborator, `utils.load_files` and the
per-file loader used at LLM.py line 86): walks a root directory, or reloads a
single file, returning documents with source-path metadata. -/
structure Loader where
  load_files : String → List Document
  load_file : String → List Document

/-- Configuration keys the embedded core reads (spec section 6). -/
structure Config where
  chunk_size : Nat
  chunk_overlap : Nat
  k : Int
  model_name : String
deriving Repr, DecidableEq

/-- Terminal failure of store creation: llm.py lines 50-52 (and LLM.py lines
50-52) print and exit when the loader returns no documents; the spec names
this `NoDocumentsError`. The unchanged world at exit is carried alongside. -/
inductive CreateErr where
  | NoDocumentsError
deriving Repr, DecidableEq

/-- Terminal failure of update: LLM.py lines 75-77 print and exit when no
store exists at the index path; the spec names this `StoreNotFoundError`. -/
inductive UpdateErr where
  | StoreNotFoundError
deriving Repr, DecidableEq

/-- `BaseLLM._create_vector_store` (llm.py lines 38-66; LLM.py lines 40-65
are the `force_recreate = false` case). Reporting-only effects (stderr
writes, the spinner, and the `calculate_cost` estimate printed on the openai
path) change no modelled state and are omitted. `splitterOf` stands for the
`RecursiveCharacterTextSplitter` constructor applied to the configured chunk
size and overlap. -/
def create_vector_store (loader : Loader)
    (splitterOf : Nat → Nat → Document → List Document) (config : Config)
    (index root_dir : String) (force_recreate : Bool) (w : World) :
    Except (CreateErr × World) (VectorStore × World) :=
  let root_dir := normpath root_dir
  let index_path := os_join2 (os_join2 root_dir "vector_store") index
  let tryLoad : Option VectorStore :=
    if force_recreate then none else get_local_vector_store w index_path
  match tryLoad with
  | some new_db => Except.ok (new_db, w)
  | none =>
    let docs := loader.load_files root_dir
    if docs.length = 0 then
      Except.error (CreateErr.NoDocumentsError, w)
    else
      let text_splitter := splitterOf config.chunk_size config.chunk_overlap
      let texts := split_documents text_splitter docs
      let dbw := FAISS_from_documents texts w
      let dbw2 := add_documents dbw.1 texts dbw.2
      let w3 := save_local dbw2.1 index_path dbw2.2
      Except.ok (dbw2.1, w3)

/-- The per-path loop of `BaseLLM._update_vector_store` (LLM.py lines
84-97): reload the file; on zero documents skip it, otherwise chunk it,
remove every stored entry whose source equals that path, and add the new
chunks. -/
def update_loop (loader : Loader) (split : Document → List Document)
    (paths : List String) (db : VectorStore) (w : World) : VectorStore × World :=
  match paths with
  | [] => (db, w)
  | updated_file_path :: rest =>
    let updated_docs := loader.load_file updated_file_path
    if updated_docs.length = 0 then
      update_loop loader split rest db w
    else
      let updated_texts := split_documents split updated_docs
      let db := remove_documents_where db (fun doc => doc.source == updated_file_path)
      let dbw := add_documents db updated_texts w
      update_loop loader split rest dbw.1 dbw.2

/-- `BaseLLM._update_vector_store` (LLM.py lines 68-101): load the persisted
store at the computed index path (exit with the spec's `StoreNotFoundError`
when there is none), run the per-path loop, persist once, and return the
updated store. -/
def update_vector_store (loader : Loader)
    (splitterOf : Nat → Nat → Document → List Document) (config : Config)
    (updated_file_paths : List String) (index root_dir : String) (w : World) :
    Except (UpdateErr × World) (VectorStore × World) :=
  let root_dir := normpath root_dir
  let index_path := os_join2 (os_join2 root_dir "vector_store") index
  match FAISS_load_local w index_path with
  | none => Except.error (UpdateErr.StoreNotFoundError, w)
  | some db =>
    let text_splitter := splitterOf config.chunk_size config.chunk_overlap
    let dbw := update_loop loader text_splitter updated_file_paths db w
    let w2 := save_local dbw.1 index_path dbw.2
    Except.ok (dbw.1, w2)

/-- Observable outcome of one `send_query` call: the retrieved chunks, the
concatenated context block, the prompt handed to the language model, whether
the model call was dispatched, and the source file paths reported back. -/
structure SendResult where
  retrieved : List Document
  content : String
  prompt : String
  dispatched : Bool
  file_paths : List String
deriving Repr, DecidableEq

/-- The fixed prompt template of `LocalLLM.send_query` (llm.py line 84). -/
def local_template : String :=
  "Given the following content, your task is to answer the question.\nQuestion: {question}\n{content}"

/-- Prompt rendering: `PromptTemplate.partial(content=...)` followed by
`llm_chain.run(query)` fills both placeholders. (Simultaneous substitution
is modelled as sequential, which coincides whenever the question does not
itself contain a placeholder.) -/
def renderPrompt (template question content : String) : String :=
  (template.replace "{question}" question).replace "{content}" content

/-- The context block built at llm.py lines 83 and 112: the retrieved chunk
texts joined with newlines, each wrapped in a content fence. -/
def context_block (docs : List Document) : String :=
  String.intercalate "\n"
    (docs.map (fun s => "content: \n```" ++ s.page_content ++ "```"))

/-- `LocalLLM.send_query` (llm.py lines 79-92). The similarity search
(`self.vector_store.search(query, k=k, search_type="similarity")`) is the
external retrieval collaborator, passed as a function of the query and `k`;
`cwd` is the process working directory `os.path.abspath` resolves against.
The chain is always run; the reported file paths are the absolute source
paths of the retrieved chunks, in retrieval order, one per chunk. -/
def LocalLLM_send_query (search : String → Int → List Document) (config : Config)
    (cwd query : String) : SendResult :=
  let k := config.k
  let docs := search query k
  let content := context_block docs
  let prompt := renderPrompt local_template query content
  { retrieved := docs
    content := content
    prompt := prompt
    dispatched := true
    file_paths := docs.map (fun s => os_abspath cwd s.source) }

/-- `OpenAILLM.send_query` (llm.py lines 108-125): same retrieval and
provenance reporting as the local variant, with the prompt built by an
f-string around the context block and sent as a system message. -/
def OpenAILLM_send_query (search : String → Int → List Document) (config : Config)
    (cwd query : String) : SendResult :=
  let k := config.k
  let docs := search query k
  let content := context_block docs
  let prompt :=
    "Given the following snippets of related content, respond with the answer to the question. \n"
      ++ content
  { retrieved := docs
    content := content
    prompt := prompt
    dispatched := true
    file_paths := docs.map (fun s => os_abspath cwd s.source) }

/-- Spec-side definition, used only to compare against the source for the
provenance claim: the deduplicated, order-preserving list of paths, each
distinct path kept at the position of its first occurrence. -/
def dedupFirst (l : List String) : List String :=
  l.foldl (fun acc x => if x ∈ acc then acc else acc ++ [x]) []

/-- The mutable fields of a `BaseLLM` instance the embedded methods touch
(LLM.py lines 20-24): the root directory, the configuration, and the
in-memory vector store set once by `__init__`. -/
structure BaseLLMState where
  root_dir : String
  config : Config
  vector_store : VectorStore
deriving Repr, DecidableEq

/-- `BaseLLM.embedding_search` / the retriever of `BaseLLM.send_query`: a
similarity search (external collaborator) run against the instance's
in-memory `self.vector_store`. -/
def embedding_search (search : VectorStore → String → Int → List Document)
    (self : BaseLLMState) (query : String) (k : Int) : List Document :=
  search self.vector_store query k

/-- `BaseLLM._update_vector_store` as a method call on an instance: the body
(LLM.py lines 68-101) reads `self.config`, works on a store loaded from
disk, and contains no assignment to `self`, so the instance comes back as it
went in, paired with the operation's result. -/
def BaseLLM_update_method (self : BaseLLMState) (loader : Loader)
    (splitterOf : Nat → Nat → Document → List Document)
    (updated_file_paths : List String) (index : String) (w : World) :
    (Except (UpdateErr × World) (VectorStore × World)) × BaseLLMState :=
  (update_vector_store loader splitterOf self.config updated_file_paths index
    self.root_dir w, self)

/-- The splitter copies each document's source metadata onto its chunks, as
langchain text splitters do (spec section 3: every chunk's source metadata
traces back to its document's path). -/
def SourcePreserving (split : Document → List Document) : Prop :=
  ∀ d c, c ∈ split d → c.source = d.source

/-- Loading a single file yields documents whose source metadata is that
path (the Loader contract of spec section 6). -/
def LoaderSound (loader : Loader) : Prop :=
  ∀ p d, d ∈ loader.load_file p → d.source = p

/-! Concrete instances used by the witnesses. -/

/-- A sample document for the file `a.py` (its pre-edit content). -/
def docA : Document := ⟨"old a", "a.py"⟩

/-- A sample document for the file `a.py` after an edit. -/
def docA2 : Document := ⟨"new a", "a.py"⟩

/-- A sample document for the file `b.py`. -/
def docB : Document := ⟨"b content", "b.py"⟩

/-- A degenerate splitter family: each document becomes one chunk. -/
def splitId : Nat → Nat → Document → List Document := fun _ _ d => [d]

/-- A concrete loader: the root directory holds `a.py` and `b.py`; reloading
`a.py` yields its edited content, any other single file yields nothing. -/
def loaderW : Loader :=
  ⟨fun _ => [docA, docB], fun p => if p = "a.py" then [docA2] else []⟩

/-- A loader over an empty corpus. -/
def loaderEmpty : Loader := ⟨fun _ => [], fun _ => []⟩

/-- A sample configuration. -/
def configW : Config := ⟨200, 20, 1, "gpt-3.5-turbo"⟩

/-- The initial world: empty disk, nothing embedded, nothing saved. -/
def w0 : World := ⟨[], 0, 0⟩

/-- The store `create_vector_store` builds from `loaderW` under `splitId`:
each chunk appears twice (`FAISS.from_documents` then `add_documents`). -/
def dbX : VectorStore := ⟨[docA, docB, docA, docB]⟩

/-- The index path the manager computes for root `root` and index `local`. -/
def ipW : String := index_path_of "root" "local"

/-- The world after that creation: the store persisted at the computed index
path, four chunks submitted to the embedding provider, one save. -/
def wX : World := ⟨[(ipW, dbX)], 4, 1⟩

/-- A pre-update store: one old chunk for `a.py` and one for `b.py`. -/
def dbU : VectorStore := ⟨[docA, docB]⟩

/-- A world holding that store at the computed index path. -/
def wU : World := ⟨[(ipW, dbU)], 0, 0⟩

/-- Retrieval returning nothing. -/
def searchEmpty : String → Int → List Document := fun _ _ => []

/-- Two retrieved chunks of the same source file. -/
def docA_chunk1 : Document := ⟨"chunk one", "a.py"⟩

/-- A second chunk of the same source file. -/
def docA_chunk2 : Document := ⟨"chunk two", "a.py"⟩

/-- Retrieval returning two chunks of one file, as similarity search over a
store holding several chunks of the same source does. -/
def searchDup : String → Int → List Document := fun _ _ => [docA_chunk1, docA_chunk2]

/-- Retrieval that returns a chunk only when invoked with k = 0, used to
exhibit the `k` actually passed through. -/
def searchProbe : String → Int → List Document :=
  fun _ k => if k = 0 then [docA_chunk1] else []

/-- A configuration with retrieval parameter k = 0. -/
def configK0 : Config := ⟨200, 20, 0, "gpt-3.5-turbo"⟩

/-! Helper lemmas. -/

theorem diskGet_diskSet_self (disk : List (String × VectorStore)) (p : String)
    (v : VectorStore) : diskGet (diskSet disk p v) p = some v := by
  simp [diskGet, diskSet]

theorem get_local_save_local (db : VectorStore) (p : String) (w : World) :
    get_local_vector_store (save_local db p w) p = some db := by
  simp [get_local_vector_store, save_local, diskGet_diskSet_self]

theorem create_vector_store_reuse (loader : Loader)
    (splitterOf : Nat → Nat → Document → List Document) (config : Config)
    (index root_dir : String) (w : World) (db : VectorStore)
    (h : get_local_vector_store w (index_path_of root_dir index) = some db) :
    create_vector_store loader splitterOf config index root_dir false w =
      Except.ok (db, w) := by
  rw [index_path_of] at h
  simp only [create_vector_store, if_false, Bool.false_eq_true]
  rw [h]

theorem create_vector_store_persists (loader : Loader)
    (splitterOf : Nat → Nat → Document → List Document) (config : Config)
    (index root_dir : String) (w w' : World) (db : VectorStore)
    (h : create_vector_store loader splitterOf config index root_dir false w =
      Except.ok (db, w')) :
    get_local_vector_store w' (index_path_of root_dir index) = some db := by
  rw [index_path_of]
  simp only [create_vector_store, if_false, Bool.false_eq_true] at h
  cases hgl : get_local_vector_store w
      (os_join2 (os_join2 (normpath root_dir) "vector_store") index) with
  | some db0 =>
    rw [hgl] at h
    simp only [Except.ok.injEq, Prod.mk.injEq] at h
    rw [← h.1, ← h.2]
    exact hgl
  | none =>
    rw [hgl] at h
    by_cases hlen : (loader.load_files (normpath root_dir)).length = 0
    · simp only [hlen, if_true] at h
      cases h
    · simp only [hlen, if_false] at h
      simp only [Except.ok.injEq, Prod.mk.injEq] at h
      rw [← h.1, ← h.2]
      exact get_local_save_local _ _ _

/-- Claim C1: when a persisted store exists at the computed index path and
`force_recreate` is not set, `create_vector_store` returns exactly that store
with the world unchanged; and after any successful call, a repeat call with
the same root and index — with an arbitrary (even different) loader, splitter
and configuration, so no document loading or chunking can influence it —
returns the same store and leaves the world unchanged, in particular
submitting nothing to the embedding provider. -/
theorem createOrLoad_idempotent_reuse (loader loader' : Loader)
    (splitterOf splitterOf' : Nat → Nat → Document → List Document)
    (config config' : Config) (index root_dir : String) :
    (∀ (w : World) (db : VectorStore),
      get_local_vector_store w (index_path_of root_dir index) = some db →
      create_vector_store loader splitterOf config index root_dir false w =
        Except.ok (db, w)) ∧
    (∀ (w w' : World) (db : VectorStore),
      create_vector_store loader splitterOf config index root_dir false w =
        Except.ok (db, w') →
      create_vector_store loader' splitterOf' config' index root_dir false w' =
        Except.ok (db, w')) := by
  constructor
  · intro w db h
    exact create_vector_store_reuse loader splitterOf config index root_dir w db h
  · intro w w' db h
    exact create_vector_store_reuse loader' splitterOf' config' index root_dir w' db
      (create_vector_store_persists loader splitterOf config index root_dir w w' db h)

/-- Witness for C1: after the first creation over the two-file corpus, a
second call on the resulting world returns the persisted store and leaves the
world — embedding counter included — unchanged. -/
theorem createOrLoad_idempotent_reuse_witness :
    create_vector_store loaderW splitId configW "local" "root" false wX =
      Except.ok (dbX, wX) :=
  (createOrLoad_idempotent_reuse loaderW loaderW splitId splitId configW configW
    "local" "root").2 w0 wX dbX (by rfl)

/-- Claim C3: with no persisted store at the computed index path, if the
loader returns zero documents then `create_vector_store` terminates with the
spec's `NoDocumentsError`, carrying the unchanged world: no store is created
or persisted and no store is returned. -/
theorem create_no_documents_terminal (loader : Loader)
    (splitterOf : Nat → Nat → Document → List Document) (config : Config)
    (index root_dir : String) (w : World)
    (hnone : get_local_vector_store w (index_path_of root_dir index) = none)
    (hempty : loader.load_files (normpath root_dir) = []) :
    create_vector_store loader splitterOf config index root_dir false w =
      Except.error (CreateErr.NoDocumentsError, w) := by
  rw [index_path_of] at hnone
  simp only [create_vector_store, if_false, Bool.false_eq_true]
  rw [hnone, hempty]
  simp

/-- Witness for C3: an empty corpus under a fresh world. -/
theorem create_no_documents_terminal_witness :
    create_vector_store loaderEmpty splitId configW "local" "root" false w0 =
      Except.error (CreateErr.NoDocumentsError, w0) :=
  create_no_documents_terminal loaderEmpty splitId configW "local" "root" w0
    (by decide) (by decide)

/-- Claim C9: a fresh creation over a non-empty document set builds the store
from the chunk list with `FAISS.from_documents` and then adds the same list
again with `add_documents`, so the persisted store's entries are the chunk
list concatenated with itself and every chunk occurs twice as often as in the
chunk list — in particular each distinct produced chunk occurs exactly
twice. -/
theorem create_adds_each_chunk_twice (loader : Loader)
    (splitterOf : Nat → Nat → Document → List Document) (config : Config)
    (index root_dir : String) (force_recreate : Bool) (w : World)
    (hmiss : (if force_recreate then none
      else get_local_vector_store w (index_path_of root_dir index)) = none)
    (hdocs : loader.load_files (normpath root_dir) ≠ []) :
    ∃ (db' : VectorStore) (w' : World),
      create_vector_store loader splitterOf config index root_dir force_recreate w =
        Except.ok (db', w') ∧
      db'.entries =
        split_documents (splitterOf config.chunk_size config.chunk_overlap)
            (loader.load_files (normpath root_dir)) ++
          split_documents (splitterOf config.chunk_size config.chunk_overlap)
            (loader.load_files (normpath root_dir)) ∧
      ∀ c : Document, db'.entries.count c =
        2 * (split_documents (splitterOf config.chunk_size config.chunk_overlap)
          (loader.load_files (normpath root_dir))).count c := by
  rw [index_path_of] at hmiss
  simp only [create_vector_store]
  rw [hmiss]
  have hlen : ¬ (loader.load_files (normpath root_dir)).length = 0 := by
    simpa [List.length_eq_zero] using hdocs
  simp only [hlen, if_false]
  refine ⟨_, _, rfl, ?_, ?_⟩
  · simp [FAISS_from_documents, add_documents]
  · intro c
    simp [FAISS_from_documents, add_documents, List.count_append, Nat.two_mul]

/-- Witness for C9: creating over the two-file corpus yields each of the two
chunks exactly twice. -/
theorem create_adds_each_chunk_twice_witness :
    ∃ (db' : VectorStore) (w' : World),
      create_vector_store loaderW splitId configW "local" "root" false w0 =
        Except.ok (db', w') ∧
      db'.entries =
        split_documents (splitId configW.chunk_size configW.chunk_overlap)
            (loaderW.load_files (normpath "root")) ++
          split_documents (splitId configW.chunk_size configW.chunk_overlap)
            (loaderW.load_files (normpath "root")) ∧
      ∀ c : Document, db'.entries.count c =
        2 * (split_documents (splitId configW.chunk_size configW.chunk_overlap)
          (loaderW.load_files (normpath "root"))).count c :=
  create_adds_each_chunk_twice loaderW splitId configW "local" "root" false w0
    (by decide) (by decide)

/-! Lemmas about source-metadata filters and the update loop. -/

theorem filter_src_filter_not_src (l : List Document) (p r : String) (hne : p ≠ r) :
    (l.filter (fun d => !(d.source == p))).filter (fun d => d.source == r) =
      l.filter (fun d => d.source == r) := by
  induction l with
  | nil => rfl
  | cons d t ih =>
    by_cases h : d.source = p
    · have hr : ¬ d.source = r := by rw [h]; exact hne
      simp [List.filter_cons, beq_iff_eq, h, hr, hne, Ne.symm hne, ih]
    · by_cases h2 : d.source = r
      · simp [List.filter_cons, beq_iff_eq, h, h2, hne, Ne.symm hne, ih]
      · simp [List.filter_cons, beq_iff_eq, h, h2, hne, Ne.symm hne, ih]

theorem filter_not_src_filter_src_self (l : List Document) (p : String) :
    (l.filter (fun d => !(d.source == p))).filter (fun d => d.source == p) = [] := by
  induction l with
  | nil => rfl
  | cons d t ih =>
    by_cases h : d.source = p
    · simp [List.filter_cons, beq_iff_eq, h, ih]
    · simp [List.filter_cons, beq_iff_eq, h, ih]

theorem filter_src_of_all_src_ne (l : List Document) (p r : String) (hne : p ≠ r)
    (hall : ∀ d ∈ l, d.source = p) :
    l.filter (fun d => d.source == r) = [] := by
  induction l with
  | nil => rfl
  | cons d t ih =>
    have hd := hall d (List.mem_cons_self d t)
    have hr : ¬ d.source = r := by rw [hd]; exact hne
    simp only [List.filter_cons]
    rw [if_neg (by simp [beq_iff_eq, hr])]
    exact ih (fun x hx => hall x (List.mem_cons_of_mem d hx))

theorem filter_src_of_all_src_self (l : List Document) (p : String)
    (hall : ∀ d ∈ l, d.source = p) :
    l.filter (fun d => d.source == p) = l := by
  induction l with
  | nil => rfl
  | cons d t ih =>
    have hd := hall d (List.mem_cons_self d t)
    simp only [List.filter_cons]
    rw [if_pos (by simp [beq_iff_eq, hd])]
    rw [ih (fun x hx => hall x (List.mem_cons_of_mem d hx))]

theorem mem_split_documents (split : Document → List Document) (docs : List Document)
    (c : Document) (hc : c ∈ split_documents split docs) : ∃ d ∈ docs, c ∈ split d := by
  induction docs with
  | nil => cases hc
  | cons d t ih =>
    rw [split_documents] at hc
    rcases List.mem_append.mp hc with h | h
    · exact ⟨d, List.mem_cons_self d t, h⟩
    · obtain ⟨d', hd', hcd'⟩ := ih h
      exact ⟨d', List.mem_cons_of_mem d hd', hcd'⟩

theorem split_load_file_source (split : Document → List Document) (loader : Loader)
    (hSP : SourcePreserving split) (hLS : LoaderSound loader) (p : String) :
    ∀ c ∈ split_documents split (loader.load_file p), c.source = p := by
  intro c hc
  obtain ⟨d, hd, hcd⟩ := mem_split_documents split (loader.load_file p) c hc
  rw [hSP d c hcd, hLS p d hd]

theorem update_loop_filter_frame (loader : Loader) (split : Document → List Document)
    (hSP : SourcePreserving split) (hLS : LoaderSound loader) (r : String)
    (paths : List String)
    (hr : ∀ q ∈ paths, loader.load_file q ≠ [] → q ≠ r) :
    ∀ (db : VectorStore) (w : World),
      (update_loop loader split paths db w).1.entries.filter (fun d => d.source == r) =
        db.entries.filter (fun d => d.source == r) := by
  induction paths with
  | nil => intro db w; rfl
  | cons q rest ih =>
    intro db w
    have hrest : ∀ x ∈ rest, loader.load_file x ≠ [] → x ≠ r :=
      fun x hx => hr x (List.mem_cons_of_mem q hx)
    by_cases hemp : (loader.load_file q).length = 0
    · rw [update_loop, if_pos hemp]
      exact ih hrest db w
    · rw [update_loop, if_neg hemp]
      have hqr : q ≠ r :=
        hr q (List.mem_cons_self q rest)
          (fun hnil => hemp (by rw [hnil]; rfl))
      rw [ih hrest]
      simp only [add_documents, remove_documents_where]
      rw [List.filter_append, filter_src_filter_not_src db.entries q r hqr,
        filter_src_of_all_src_ne _ q r hqr
          (split_load_file_source split loader hSP hLS q),
        List.append_nil]

theorem update_loop_filter_updated (loader : Loader) (split : Document → List Document)
    (hSP : SourcePreserving split) (hLS : LoaderSound loader) (p : String)
    (hact : loader.load_file p ≠ []) (paths : List String) (hp : p ∈ paths) :
    ∀ (db : VectorStore) (w : World),
      (update_loop loader split paths db w).1.entries.filter (fun d => d.source == p) =
        split_documents split (loader.load_file p) := by
  induction paths with
  | nil => cases hp
  | cons q rest ih =>
    intro db w
    by_cases hrest : p ∈ rest
    · by_cases hemp : (loader.load_file q).length = 0
      · rw [update_loop, if_pos hemp]
        exact ih hrest db w
      · rw [update_loop, if_neg hemp]
        exact ih hrest _ _
    · have hpq : p = q := by
        cases List.mem_cons.mp hp with
        | inl h => exact h
        | inr h => exact absurd h hrest
      subst hpq
      have hemp : ¬ (loader.load_file p).length = 0 := by
        simpa [List.length_eq_zero] using hact
      rw [update_loop, if_neg hemp]
      rw [update_loop_filter_frame loader split hSP hLS p rest
        (fun x hx _ heq => hrest (heq ▸ hx))]
      simp only [add_documents, remove_documents_where]
      rw [List.filter_append, filter_not_src_filter_src_self,
        filter_src_of_all_src_self _ p
          (split_load_file_source split loader hSP hLS p),
        List.nil_append]

theorem update_loop_saves (loader : Loader) (split : Document → List Document)
    (paths : List String) :
    ∀ (db : VectorStore) (w : World),
      (update_loop loader split paths db w).2.saves = w.saves := by
  induction paths with
  | nil => intro db w; rfl
  | cons q rest ih =>
    intro db w
    by_cases hemp : (loader.load_file q).length = 0
    · rw [update_loop, if_pos hemp]
      exact ih db w
    · rw [update_loop, if_neg hemp]
      rw [ih]
      rfl

/-- Claim C4: when no persisted store exists at the computed index path,
`update_vector_store` terminates with the spec's `StoreNotFoundError` and the
world — the disk in particular — is unchanged: an update never implicitly
creates an index. -/
theorem update_requires_existing_store (loader : Loader)
    (splitterOf : Nat → Nat → Document → List Document) (config : Config)
    (updated_file_paths : List String) (index root_dir : String) (w : World)
    (hnone : FAISS_load_local w (index_path_of root_dir index) = none) :
    update_vector_store loader splitterOf config updated_file_paths index root_dir w =
      Except.error (UpdateErr.StoreNotFoundError, w) := by
  rw [index_path_of] at hnone
  simp only [update_vector_store]
  rw [hnone]

/-- Witness for C4: an update over an empty disk fails without creating
anything. -/
theorem update_requires_existing_store_witness :
    update_vector_store loaderW splitId configW ["a.py"] "local" "root" w0 =
      Except.error (UpdateErr.StoreNotFoundError, w0) :=
  update_requires_existing_store loaderW splitId configW ["a.py"] "local" "root" w0 rfl

/-- Claim C2: for a path in the update batch whose reload yields documents,
after the update the store's entries whose source is that path are exactly
the path's new chunks — zero chunks of its old content remain — while the
entries of every file not touched by the batch are unchanged; so the store
ends with the new chunks for updated paths plus the unchanged chunks of all
other files. -/
theorem update_evicts_stale_chunks (loader : Loader)
    (splitterOf : Nat → Nat → Document → List Document) (config : Config)
    (updated_file_paths : List String) (index root_dir : String) (w : World)
    (db : VectorStore) (p : String)
    (hSP : SourcePreserving (splitterOf config.chunk_size config.chunk_overlap))
    (hLS : LoaderSound loader)
    (hdb : FAISS_load_local w (index_path_of root_dir index) = some db)
    (hp : p ∈ updated_file_paths)
    (hne : loader.load_file p ≠ []) :
    ∃ (db' : VectorStore) (w' : World),
      update_vector_store loader splitterOf config updated_file_paths index root_dir w =
        Except.ok (db', w') ∧
      db'.entries.filter (fun d => d.source == p) =
        split_documents (splitterOf config.chunk_size config.chunk_overlap)
          (loader.load_file p) ∧
      ∀ r : String,
        (∀ q ∈ updated_file_paths, loader.load_file q ≠ [] → q ≠ r) →
        db'.entries.filter (fun d => d.source == r) =
          db.entries.filter (fun d => d.source == r) := by
  rw [index_path_of] at hdb
  simp only [update_vector_store]
  rw [hdb]
  refine ⟨_, _, rfl, ?_, ?_⟩
  · exact update_loop_filter_updated loader
      (splitterOf config.chunk_size config.chunk_overlap) hSP hLS p hne
      updated_file_paths hp db w
  · intro r hr
    exact update_loop_filter_frame loader
      (splitterOf config.chunk_size config.chunk_overlap) hSP hLS r
      updated_file_paths hr db w

/-- Claim C5: a path in the update batch whose reload yields zero documents
is skipped non-fatally — the batch still completes with a returned store, the
skipped path's prior chunks are unchanged in it — and the store is persisted
exactly once, after all paths are processed. -/
theorem update_skips_missing_file_nonfatally (loader : Loader)
    (splitterOf : Nat → Nat → Document → List Document) (config : Config)
    (updated_file_paths : List String) (index root_dir : String) (w : World)
    (db : VectorStore) (p : String)
    (hSP : SourcePreserving (splitterOf config.chunk_size config.chunk_overlap))
    (hLS : LoaderSound loader)
    (hdb : FAISS_load_local w (index_path_of root_dir index) = some db)
    (_hp : p ∈ updated_file_paths)
    (hempty : loader.load_file p = []) :
    ∃ (db' : VectorStore) (w' : World),
      update_vector_store loader splitterOf config updated_file_paths index root_dir w =
        Except.ok (db', w') ∧
      db'.entries.filter (fun d => d.source == p) =
        db.entries.filter (fun d => d.source == p) ∧
      w'.saves = w.saves + 1 := by
  rw [index_path_of] at hdb
  simp only [update_vector_store]
  rw [hdb]
  refine ⟨_, _, rfl, ?_, ?_⟩
  · exact update_loop_filter_frame loader
      (splitterOf config.chunk_size config.chunk_overlap) hSP hLS p
      updated_file_paths
      (fun q _ hqne heq => hqne (heq ▸ hempty)) db w
  · simp only [save_local]
    rw [update_loop_saves]

/-! Witness material for the update claims. -/

theorem splitId_source_preserving (cs co : Nat) : SourcePreserving (splitId cs co) := by
  intro d c hc
  rw [List.mem_singleton.mp hc]

theorem loaderW_loader_sound : LoaderSound loaderW := by
  intro p d hd
  by_cases hp : p = "a.py"
  · simp only [loaderW, hp, if_pos] at hd
    rw [List.mem_singleton.mp hd, hp]
    rfl
  · simp only [loaderW, if_neg hp] at hd
    cases hd

theorem wU_has_store : FAISS_load_local wU (index_path_of "root" "local") = some dbU := by
  simp [FAISS_load_local, wU, ipW, diskGet]

/-- Witness for C2: updating `["a.py", "gone.py"]` over the two-chunk store
leaves exactly the new `a.py` chunks under that source and the chunks of
untouched files unchanged. -/
theorem update_evicts_stale_chunks_witness :
    ∃ (db' : VectorStore) (w' : World),
      update_vector_store loaderW splitId configW ["a.py", "gone.py"] "local" "root" wU =
        Except.ok (db', w') ∧
      db'.entries.filter (fun d => d.source == "a.py") =
        split_documents (splitId configW.chunk_size configW.chunk_overlap)
          (loaderW.load_file "a.py") ∧
      ∀ r : String,
        (∀ q ∈ ["a.py", "gone.py"], loaderW.load_file q ≠ [] → q ≠ r) →
        db'.entries.filter (fun d => d.source == r) =
          dbU.entries.filter (fun d => d.source == r) :=
  update_evicts_stale_chunks loaderW splitId configW ["a.py", "gone.py"] "local" "root"
    wU dbU "a.py" (splitId_source_preserving configW.chunk_size configW.chunk_overlap)
    loaderW_loader_sound wU_has_store (List.mem_cons_self "a.py" ["gone.py"]) (by decide)

/-- Witness for C5: the vanished file `gone.py` is skipped, its prior chunks
survive, and the store is saved exactly once. -/
theorem update_skips_missing_file_nonfatally_witness :
    ∃ (db' : VectorStore) (w' : World),
      update_vector_store loaderW splitId configW ["a.py", "gone.py"] "local" "root" wU =
        Except.ok (db', w') ∧
      db'.entries.filter (fun d => d.source == "gone.py") =
        dbU.entries.filter (fun d => d.source == "gone.py") ∧
      w'.saves = wU.saves + 1 :=
  update_skips_missing_file_nonfatally loaderW splitId configW ["a.py", "gone.py"]
    "local" "root" wU dbU "gone.py"
    (splitId_source_preserving configW.chunk_size configW.chunk_overlap)
    loaderW_loader_sound wU_has_store (by decide) (by decide)

/-! The query engine. -/

theorem dedupFirst_aux_nodup (l : List String) :
    ∀ acc : List String, acc.Nodup →
      (l.foldl (fun acc x => if x ∈ acc then acc else acc ++ [x]) acc).Nodup := by
  induction l with
  | nil => intro acc hacc; exact hacc
  | cons x t ih =>
    intro acc hacc
    by_cases hx : x ∈ acc
    · simp only [List.foldl_cons, if_pos hx]
      exact ih acc hacc
    · simp only [List.foldl_cons, if_neg hx]
      refine ih (acc ++ [x]) ?_
      rw [List.nodup_append]
      exact ⟨hacc, List.nodup_singleton x,
        fun a ha hax => hx ((List.mem_singleton.mp hax) ▸ ha)⟩

theorem dedupFirst_nodup (l : List String) : (dedupFirst l).Nodup :=
  dedupFirst_aux_nodup l [] List.nodup_nil

/-- Counterexample for C6: a query retrieving two chunks of the same file
reports that file's absolute path twice — the provenance list is not
deduplicated, so it differs from the spec-side deduplicated, order-preserving
list (`dedupFirst`) of the same paths. -/
theorem send_query_provenance_not_deduplicated :
    (LocalLLM_send_query searchDup configW "/work" "q").file_paths =
      [os_abspath "/work" "a.py", os_abspath "/work" "a.py"] ∧
    (LocalLLM_send_query searchDup configW "/work" "q").file_paths ≠
      dedupFirst ((LocalLLM_send_query searchDup configW "/work" "q").file_paths) := by
  refine ⟨rfl, fun h => ?_⟩
  have hnd := dedupFirst_nodup ((LocalLLM_send_query searchDup configW "/work" "q").file_paths)
  rw [← h] at hnd
  have hx : (LocalLLM_send_query searchDup configW "/work" "q").file_paths =
      [os_abspath "/work" "a.py", os_abspath "/work" "a.py"] := rfl
  rw [hx] at hnd
  exact (List.nodup_cons.mp hnd).1 (List.mem_singleton.mpr rfl)

/-- Claim C6 as amended: the reported provenance is the list of absolute
source paths of the retrieved chunks, in retrieval order, one entry per
retrieved chunk and without deduplication — a path appears once per chunk
retrieved from it, not once per distinct path — in both `send_query`
variants. -/
theorem send_query_provenance_per_chunk (search : String → Int → List Document)
    (config : Config) (cwd query : String) :
    (LocalLLM_send_query search config cwd query).file_paths =
      (search query config.k).map (fun s => os_abspath cwd s.source) ∧
    (OpenAILLM_send_query search config cwd query).file_paths =
      (search query config.k).map (fun s => os_abspath cwd s.source) :=
  ⟨rfl, rfl⟩

/-- Counterexample for C7: called with k = 0 (< 1), `send_query` does not
fail with any error — no `InvalidParameterError` exists in the code — but
proceeds: the probe search really is invoked with k = 0 (it returns its
sentinel chunk only for that k) and the prompt is dispatched. -/
theorem send_query_accepts_k_zero :
    (LocalLLM_send_query searchProbe configK0 "/work" "q").retrieved = [docA_chunk1] ∧
    (LocalLLM_send_query searchProbe configK0 "/work" "q").dispatched = true ∧
    (OpenAILLM_send_query searchProbe configK0 "/work" "q").retrieved = [docA_chunk1] ∧
    (OpenAILLM_send_query searchProbe configK0 "/work" "q").dispatched = true :=
  ⟨rfl, rfl, rfl, rfl⟩

/-- Claim C7 as amended: `send_query` performs no validation of the retrieval
parameter: for every k, including every k < 1, it proceeds directly to the
similarity search with that k and dispatches the resulting prompt, in both
variants. -/
theorem send_query_no_k_validation (search : String → Int → List Document)
    (config : Config) (cwd query : String) (_h : config.k < 1) :
    (LocalLLM_send_query search config cwd query).retrieved = search query config.k ∧
    (LocalLLM_send_query search config cwd query).dispatched = true ∧
    (OpenAILLM_send_query search config cwd query).retrieved = search query config.k ∧
    (OpenAILLM_send_query search config cwd query).dispatched = true :=
  ⟨rfl, rfl, rfl, rfl⟩

/-- Witness for the amended C7 at the concrete k = 0. -/
theorem send_query_no_k_validation_witness :
    (LocalLLM_send_query searchProbe configK0 "/work" "q").retrieved =
      searchProbe "q" configK0.k ∧
    (LocalLLM_send_query searchProbe configK0 "/work" "q").dispatched = true ∧
    (OpenAILLM_send_query searchProbe configK0 "/work" "q").retrieved =
      searchProbe "q" configK0.k ∧
    (OpenAILLM_send_query searchProbe configK0 "/work" "q").dispatched = true :=
  send_query_no_k_validation searchProbe configK0 "/work" "q" (by decide)

/-- Claim C8: when similarity retrieval returns zero chunks, `send_query`
does not fail: the context block is empty, the fixed-template prompt is still
built around the empty context and dispatched to the model, and the reported
provenance is empty — in both variants. -/
theorem send_query_empty_retrieval_ok (search : String → Int → List Document)
    (config : Config) (cwd query : String)
    (h : search query config.k = []) :
    (LocalLLM_send_query search config cwd query).content = "" ∧
    (LocalLLM_send_query search config cwd query).prompt =
      renderPrompt local_template query "" ∧
    (LocalLLM_send_query search config cwd query).dispatched = true ∧
    (LocalLLM_send_query search config cwd query).file_paths = [] ∧
    (OpenAILLM_send_query search config cwd query).dispatched = true ∧
    (OpenAILLM_send_query search config cwd query).file_paths = [] := by
  have hnil : context_block [] = "" := rfl
  simp [LocalLLM_send_query, OpenAILLM_send_query, h, hnil]

/-- Witness for C8: the empty search. -/
theorem send_query_empty_retrieval_ok_witness :
    (LocalLLM_send_query searchEmpty configW "/work" "what").content = "" ∧
    (LocalLLM_send_query searchEmpty configW "/work" "what").prompt =
      renderPrompt local_template "what" "" ∧
    (LocalLLM_send_query searchEmpty configW "/work" "what").dispatched = true ∧
    (LocalLLM_send_query searchEmpty configW "/work" "what").file_paths = [] ∧
    (OpenAILLM_send_query searchEmpty configW "/work" "what").dispatched = true ∧
    (OpenAILLM_send_query searchEmpty configW "/work" "what").file_paths = [] :=
  send_query_empty_retrieval_ok searchEmpty configW "/work" "what" rfl

/-- Claim C10: `_update_vector_store` as a method contains no assignment to
`self`, so the instance comes back from the call exactly as it went in — its
`vector_store` field, set once by `__init__`, is untouched whatever the
disk-side outcome — and a subsequent `embedding_search` (the retrieval step
of `send_query`) on the same instance still searches the pre-update in-memory
store. -/
theorem update_method_preserves_instance_store (self : BaseLLMState)
    (loader : Loader) (splitterOf : Nat → Nat → Document → List Document)
    (updated_file_paths : List String) (index : String) (w : World) :
    (BaseLLM_update_method self loader splitterOf updated_file_paths index w).2 = self ∧
    (BaseLLM_update_method self loader splitterOf updated_file_paths index w).2.vector_store =
      self.vector_store ∧
    ∀ (search : VectorStore → String → Int → List Document) (query : String) (k : Int),
      embedding_search search
          (BaseLLM_update_method self loader splitterOf updated_file_paths index w).2 query k =
        embedding_search search self query k :=
  ⟨rfl, rfl, fun _ _ _ => rfl⟩

end TalkCodebase
